import Mathlib

/-!
# Verification of the photo-downloader batch acquisition pipeline

Shallow embedding of the service in `app/services/photo_downloader.py`,
`app/services/s3_service.py` and the request/result schemas of
`app/schemas/schemas.py`.  Collaborator behaviour (the Telegram file
locator, the HTTP fetch of the image bytes, PIL decoding, and the S3
upload) is abstracted into an environment of response functions; the
control flow, the validation checks, the error classification and the
construction of every result record follow the Python source line by
line.  Network interactions are tracked as an explicit list of calls so
that "no resolve/fetch/upload happened" is a provable statement.
-/

/- ## String helpers (models of Python `str` operations) -/

/-- Model of `a.startswith(b)` on the character lists of the strings. -/
def startsList : List Char → List Char → Bool
  | _, [] => true
  | [], _ :: _ => false
  | a :: s, b :: p => a == b && startsList s p

/-- Model of Python's substring test `b in a` (used by the error-code
dispatch in `_download_and_upload_photo`, source line 398). -/
def hasSubList : List Char → List Char → Bool
  | [], p => startsList [] p
  | a :: t, p => startsList (a :: t) p || hasSubList t p

/-- Model of `s.startswith(p)` for strings. -/
def pyStartsWith (s p : String) : Bool := startsList s.data p.data

/-- Model of the substring test `p in s` for strings. -/
def strContains (s p : String) : Bool := hasSubList s.data p.data

/-- Model of Python `str.strip()`: drop whitespace from both ends. -/
def stripList (l : List Char) : List Char :=
  ((l.dropWhile Char.isWhitespace).reverse.dropWhile Char.isWhitespace).reverse

/-- Model of `s.strip()` for strings. -/
def pyStrip (s : String) : String := String.mk (stripList s.data)

/- ## Model of `urllib.parse.urlparse` scheme/netloc extraction
(`_validate_url`, source lines 107-113, checks that both the scheme and
the netloc of the parsed URL are non-empty). -/

/-- Characters allowed in a URL scheme after the leading letter. -/
def schemeChar (c : Char) : Bool := c.isAlphanum || c == '+' || c == '-' || c == '.'

/-- Split a character list at the first colon, if any. -/
def breakAtColon : List Char → Option (List Char × List Char)
  | [] => none
  | c :: t =>
    if c == ':' then some ([], t)
    else match breakAtColon t with
      | none => none
      | some (a, b) => some (c :: a, b)

/-- Scheme/rest split as `urlparse` does it: the part before the first
colon is the scheme when it starts with a letter and uses only scheme
characters, otherwise there is no scheme. -/
def urlSchemeSplit (url : List Char) : List Char × List Char :=
  match breakAtColon url with
  | none => ([], url)
  | some (bef, aft) =>
    match bef with
    | [] => ([], url)
    | c :: rest =>
      if c.isAlpha && rest.all schemeChar then (c :: rest, aft) else ([], url)

/-- The netloc: present only when the remainder after the scheme starts
with `//`, and then runs to the next `/`, `?` or `#`. -/
def urlNetloc : List Char → List Char
  | '/' :: '/' :: r => r.takeWhile (fun c => !(c == '/' || c == '?' || c == '#'))
  | _ => []

/-- Model of `_validate_url` (source lines 107-113): `urlparse` succeeds and both
`scheme` and `netloc` are truthy (non-empty). -/
def validateUrl (url : String) : Bool :=
  let sr := urlSchemeSplit url.data
  !sr.1.isEmpty && !(urlNetloc sr.2).isEmpty

/- ## Data model (from `app/schemas/schemas.py` and the legacy request
object built in `app/main.py`) -/

/-- The `LegacyPhotoFile` / `PhotoFile` record: one referenced file. -/
structure PhotoFile where
  file_id : String
  s3_key : String
deriving DecidableEq, Repr

/-- The request handed to `PhotoDownloader` (the legacy training request
built in `main.py` and `InferencePhotoRequest` both expose exactly these
attributes; `batch_id` is absent on inference requests).  `bot_id` and
`user_id` are integers in the schemas and are stringified wherever they
enter a path or metadata. -/
structure UploadRequest where
  header : String
  bot_id : Nat
  user_id : Nat
  avatar_id : String
  batch_id : Option String
  photos : List PhotoFile
deriving DecidableEq, Repr

/-- The `FileUploadResult` schema: a per-item success record. -/
structure FileUploadResult where
  file_id : String
  s3_key : String
  s3_url : String
  file_size : Nat
  upload_time : Nat
  content_type : String
  width : Nat
  height : Nat
deriving DecidableEq, Repr

/-- The `FileUploadError` schema: a per-item failure record. -/
structure FileUploadError where
  file_id : String
  s3_key : String
  error_message : String
  error_code : String
deriving DecidableEq, Repr

/-- A per-item outcome: `FileUploadResult` or `FileUploadError`. -/
inductive ItemRes where
  | success (r : FileUploadResult)
  | failure (e : FileUploadError)
deriving DecidableEq, Repr

/-- The `PhotoUploadResult` schema: the aggregate batch result. -/
structure PhotoUploadResult where
  header : String
  bot_id : Nat
  user_id : Nat
  avatar_id : String
  batch_id : Option String
  total_files : Nat
  successful_files : Nat
  failed_files : Nat
  successful_uploads : List FileUploadResult
  failed_uploads : List FileUploadError
  processing_time : Nat
  total_size : Nat
  message : String
deriving DecidableEq, Repr

/-- The `PhotoUploadError` schema: the whole-batch critical error record. -/
structure PhotoUploadError where
  header : String
  bot_id : Nat
  user_id : Nat
  avatar_id : String
  batch_id : Option String
  error : String
  error_code : String
  failed_files : List String
deriving DecidableEq, Repr

/-- Result of `_process_batch_training`. -/
inductive BatchOut where
  | result (r : PhotoUploadResult)
  | critical (e : PhotoUploadError)
deriving DecidableEq, Repr

/-- The Python exceptions that steer the handlers of
`_download_and_upload_photo` (source lines 461-487). -/
inductive PyExn where
  | httpStatusError (status : Nat)
  | timeoutException
  | typeError (msg : String)
  | generic (msg : String)
deriving DecidableEq, Repr

/-- Model of `str(e)` for the exceptions above (only its exact shape for
`typeError` matters nowhere; messages are carried through verbatim). -/
def pyExnStr : PyExn → String
  | .httpStatusError s => "HTTP status error " ++ toString s
  | .timeoutException => "timeout"
  | .typeError m => m
  | .generic m => m

deriving instance DecidableEq for Except

/-- An HTTP response for the image fetch: status, byte count of
`response.content`, the optional `content-type` header, and the result
of PIL decoding `response.content` (dimensions or an exception text). -/
structure HttpResp where
  status : Nat
  content_size : Nat
  content_type : Option String
  decode : Except String (Nat × Nat)
deriving DecidableEq, Repr

/-- Outcome of `client.get(photo_url)`: a response, a timeout, or some
other transport exception. -/
inductive FetchOut where
  | resp (r : HttpResp)
  | timeoutExn
  | otherExn (msg : String)
deriving DecidableEq, Repr

/-- A network interaction issued by the pipeline. -/
inductive NetCall where
  | resolveCall (file_id : String)
  | fetchCall (url : String)
  | uploadCall (key : String) (content_type : String) (metadata : List (String × String))
deriving DecidableEq, Repr

/-- Collaborator behaviour: the Telegram `getFile` resolution, the image
fetch, the S3 upload, plus the date partition and uuid used by
`generate_s3_key` and the wall-clock duration measurements. -/
structure Env where
  resolve : String → Except String String
  fetch : String → FetchOut
  upload : String → Except String String
  datePath : String
  uuidStr : String
  elapsed : Nat

/-- The configuration surface consumed by `PhotoDownloader.__init__`
(sizes already converted to bytes, as in the source). -/
structure Config where
  max_file_size : Nat
  min_file_size : Nat
  download_timeout : Nat
  max_concurrent_downloads : Nat
  max_batch_size : Nat
  min_image_dimension : Nat
deriving DecidableEq, Repr

/-- The set `self.supported_content_types` (source lines 41-44). -/
def supportedContentTypes : List String :=
  ["image/jpeg", "image/jpg", "image/png", "image/gif", "image/webp", "image/bmp"]

/- ## Key generation and path building -/

/-- Model of `S3Service.generate_s3_key` (s3_service.py lines 50-57): date
partition plus the photo id (or a fresh uuid when the id is falsy),
with the given extension. -/
def generate_s3_key (env : Env) (chat_id : Nat) (photo_id : String)
    (file_extension : String) : String :=
  let pid := if photo_id = "" then env.uuidStr else photo_id
  "photos/" ++ toString chat_id ++ "/" ++ env.datePath ++ "/" ++ pid ++ file_extension

/-- The `TypeError` that Python raises at every call site of
`generate_s3_key` in `photo_downloader.py` (lines 149-152 and 325-329):
both pass the keyword argument `user_id`, but the method's first
parameter is named `chat_id`, so the call never executes. -/
def genKeyKwargError : PyExn :=
  PyExn.typeError "generate_s3_key() got an unexpected keyword argument: user_id"

/-- Model of `_generate_error_s3_key` (source lines 144-152): return the explicit
non-blank key, otherwise fall through to the `generate_s3_key` call,
which raises the keyword-argument `TypeError`. -/
def generateErrorS3Key (photo : PhotoFile) : Except PyExn String :=
  if photo.s3_key ≠ "" ∧ pyStrip photo.s3_key ≠ "" then Except.ok photo.s3_key
  else Except.error genKeyKwargError

/-- Model of `_build_s3_path` (source lines 489-496). -/
def buildS3Path (req : UploadRequest) (s3_key : String) : String :=
  if req.header = "train" then
    toString req.bot_id ++ "/" ++ toString req.user_id ++ "/" ++ req.avatar_id ++ "/" ++ s3_key
  else
    "uploads/" ++ req.header ++ "/" ++ toString req.bot_id ++ "/" ++ toString req.user_id ++
      "/" ++ req.avatar_id ++ "/" ++ s3_key

/- ## Per-item pipeline -/

/-- Model of `_validate_image_dimensions` (source lines 115-142): returns
`(is_valid, error_message, width, height)`. -/
def validateImageDimensions (cfg : Config) (decoded : Except String (Nat × Nat)) :
    Bool × String × Nat × Nat :=
  match decoded with
  | Except.ok (w, h) =>
    if w < cfg.min_image_dimension ∨ h < cfg.min_image_dimension then
      (false,
        "Image dimensions " ++ toString w ++ "x" ++ toString h ++
          " do not meet minimum requirement of " ++ toString cfg.min_image_dimension ++
          "px for both width and height", w, h)
    else (true, "", w, h)
  | Except.error e => (false, "Corrupted or invalid image file: " ++ e, 0, 0)

/-- Model of `_get_telegram_file_url` (source lines 70-105): ids that already
start with `http://` or `https://` are used directly with no locator
interaction; otherwise the Telegram `getFile` endpoint is consulted and
any fault there surfaces as an exception to the caller. -/
def getTelegramFileUrl (env : Env) (file_id : String) :
    Except String String × List NetCall :=
  if pyStartsWith file_id "http://" || pyStartsWith file_id "https://" then
    (Except.ok file_id, [])
  else (env.resolve file_id, [NetCall.resolveCall file_id])

/-- The upload metadata dictionary (source lines 422-436); `batch_id`
is attached only when the request carries a truthy one. -/
def buildMetadata (req : UploadRequest) (photo : PhotoFile) (env : Env)
    (width height : Nat) : List (String × String) :=
  let base := [("bot_id", toString req.bot_id), ("user_id", toString req.user_id),
    ("avatar_id", req.avatar_id), ("file_id", photo.file_id), ("header", req.header),
    ("processing_time", toString env.elapsed),
    ("image_width", toString width), ("image_height", toString height)]
  match req.batch_id with
  | some b => if b ≠ "" then base ++ [("batch_id", b)] else base
  | none => base

/-- The upload step (source lines 438-459): an S3 fault is re-raised by
`S3Service.upload_file` and reaches the generic exception handler. -/
def uploadStage (env : Env) (photo : PhotoFile) (req : UploadRequest)
    (full_s3_key : String) (r : HttpResp) (content_type : String)
    (width height : Nat) (calls : List NetCall) :
    Except PyExn ItemRes × List NetCall :=
  let metadata := buildMetadata req photo env width height
  let calls := calls ++ [NetCall.uploadCall full_s3_key content_type metadata]
  match env.upload full_s3_key with
  | Except.error m => (Except.error (PyExn.generic m), calls)
  | Except.ok file_url =>
    (Except.ok (ItemRes.success
      ⟨photo.file_id, full_s3_key, file_url, r.content_size, env.elapsed,
        content_type, width, height⟩), calls)

/-- The image-dimension stage (source lines 392-420): strict validation
for `train` headers (error code chosen by a substring test on the
message), best-effort decoding with `0,0` fallback otherwise. -/
def afterType (cfg : Config) (env : Env) (photo : PhotoFile) (req : UploadRequest)
    (full_s3_key : String) (r : HttpResp) (content_type : String)
    (calls : List NetCall) : Except PyExn ItemRes × List NetCall :=
  if req.header = "train" then
    match validateImageDimensions cfg r.decode with
    | (false, dimension_error, _, _) =>
      let error_code :=
        if strContains dimension_error "Corrupted or invalid image file" then
          "CORRUPTED_FILE"
        else "IMAGE_TOO_SMALL"
      (Except.ok (ItemRes.failure
        ⟨photo.file_id, full_s3_key, dimension_error, error_code⟩), calls)
    | (true, _, w, h) =>
      uploadStage env photo req full_s3_key r content_type w h calls
  else
    match r.decode with
    | Except.ok (w, h) => uploadStage env photo req full_s3_key r content_type w h calls
    | Except.error _ => uploadStage env photo req full_s3_key r content_type 0 0 calls

/-- Size and content-type validation on a fetched response (source lines
360-390): `raise_for_status` for non-2xx, then the maximum-size check,
the minimum-size check, and the supported-format check, in that order;
a missing `content-type` header defaults to `image/jpeg`. -/
def afterFetch (cfg : Config) (env : Env) (photo : PhotoFile) (req : UploadRequest)
    (full_s3_key : String) (r : HttpResp) (calls : List NetCall) :
    Except PyExn ItemRes × List NetCall :=
  if ¬ (200 ≤ r.status ∧ r.status ≤ 299) then
    (Except.error (PyExn.httpStatusError r.status), calls)
  else if cfg.max_file_size < r.content_size then
    (Except.ok (ItemRes.failure ⟨photo.file_id, full_s3_key,
      "File size " ++ toString r.content_size ++ " exceeds maximum " ++
        toString cfg.max_file_size, "FILE_TOO_LARGE"⟩), calls)
  else if r.content_size < cfg.min_file_size then
    (Except.ok (ItemRes.failure ⟨photo.file_id, full_s3_key,
      "File size " ++ toString r.content_size ++ " is below minimum " ++
        toString cfg.min_file_size, "FILE_TOO_SMALL"⟩), calls)
  else
    let content_type := r.content_type.getD "image/jpeg"
    if supportedContentTypes.contains content_type = false then
      (Except.ok (ItemRes.failure ⟨photo.file_id, full_s3_key,
        "Unsupported file format: " ++ content_type, "UNSUPPORTED_FORMAT"⟩), calls)
    else afterType cfg env photo req full_s3_key r content_type calls

/-- The `try` block of `_download_and_upload_photo` (source lines
316-459).  A blank `s3_key` sends the flow into `generate_s3_key`,
whose call raises the keyword-argument `TypeError` before any network
interaction. -/
def dlBody (cfg : Config) (env : Env) (photo : PhotoFile) (req : UploadRequest) :
    Except PyExn ItemRes × List NetCall :=
  if photo.s3_key = "" ∨ pyStrip photo.s3_key = "" then
    (Except.error genKeyKwargError, [])
  else
    let full_s3_key := buildS3Path req photo.s3_key
    match getTelegramFileUrl env photo.file_id with
    | (Except.error e, calls) =>
      (Except.ok (ItemRes.failure ⟨photo.file_id, full_s3_key,
        "Failed to get Telegram file URL: " ++ e, "TELEGRAM_API_ERROR"⟩), calls)
    | (Except.ok photo_url, calls) =>
      if validateUrl photo_url = false then
        (Except.ok (ItemRes.failure ⟨photo.file_id, full_s3_key,
          "Invalid Telegram file URL: " ++ photo_url, "INVALID_TELEGRAM_URL"⟩), calls)
      else
        match env.fetch photo_url with
        | FetchOut.timeoutExn =>
          (Except.error PyExn.timeoutException, calls ++ [NetCall.fetchCall photo_url])
        | FetchOut.otherExn m =>
          (Except.error (PyExn.generic m), calls ++ [NetCall.fetchCall photo_url])
        | FetchOut.resp r =>
          afterFetch cfg env photo req full_s3_key r (calls ++ [NetCall.fetchCall photo_url])

/-- Model of `_download_and_upload_photo` (source lines 306-487): the `try` body
plus the three exception handlers.  Each handler rebuilds the attempted
key through `_generate_error_s3_key`, which itself raises the
keyword-argument `TypeError` when the item's key is blank, so in that
case the exception escapes the method. -/
def downloadAndUploadPhoto (cfg : Config) (env : Env) (photo : PhotoFile)
    (req : UploadRequest) : Except PyExn ItemRes × List NetCall :=
  match dlBody cfg env photo req with
  | (Except.ok res, calls) => (Except.ok res, calls)
  | (Except.error e, calls) =>
    match generateErrorS3Key photo with
    | Except.error te => (Except.error te, calls)
    | Except.ok key =>
      let full := buildS3Path req key
      match e with
      | PyExn.httpStatusError st =>
        (Except.ok (ItemRes.failure ⟨photo.file_id, full,
          "HTTP error downloading file: " ++ toString st, "DOWNLOAD_HTTP_ERROR"⟩), calls)
      | PyExn.timeoutException =>
        (Except.ok (ItemRes.failure ⟨photo.file_id, full,
          "Timeout downloading file after " ++ toString cfg.download_timeout ++ "s",
          "DOWNLOAD_TIMEOUT"⟩), calls)
      | PyExn.typeError m =>
        (Except.ok (ItemRes.failure ⟨photo.file_id, full,
          "Unexpected error: " ++ m, "UNEXPECTED_ERROR"⟩), calls)
      | PyExn.generic m =>
        (Except.ok (ItemRes.failure ⟨photo.file_id, full,
          "Unexpected error: " ++ m, "UNEXPECTED_ERROR"⟩), calls)

/- ## Batch orchestration -/

/-- The result classification of `_process_batch_training` (source lines
232-245): an exception captured by `asyncio.gather(return_exceptions=True)`
becomes an `UNEXPECTED_ERROR` failure with unknown file id and key. -/
def classifyGatherResult (r : Except PyExn ItemRes) : ItemRes :=
  match r with
  | Except.error e => ItemRes.failure ⟨"unknown", "unknown", pyExnStr e, "UNEXPECTED_ERROR"⟩
  | Except.ok res => res

/-- The successes, in completion order. -/
def successesOf (l : List ItemRes) : List FileUploadResult :=
  l.filterMap fun r => match r with
    | ItemRes.success s => some s
    | ItemRes.failure _ => none

/-- The failures, in completion order. -/
def failuresOf (l : List ItemRes) : List FileUploadError :=
  l.filterMap fun r => match r with
    | ItemRes.success _ => none
    | ItemRes.failure e => some e

/-- Model of `_process_batch_training` (source lines 205-292).  `_validate_batch`
raises `ValueError` for an empty or oversize batch; the surrounding
`except` turns any such exception into a `PhotoUploadError` with
`error_code` `BATCH_PROCESSING_ERROR` listing every input file id.
Otherwise one task per photo runs under the semaphore and the outcomes
are aggregated. -/
def processBatchTraining (cfg : Config) (env : Env) (req : UploadRequest) :
    BatchOut × List NetCall :=
  if req.photos.isEmpty then
    (BatchOut.critical ⟨req.header, req.bot_id, req.user_id, req.avatar_id, req.batch_id,
      "Batch cannot be empty", "BATCH_PROCESSING_ERROR",
      req.photos.map PhotoFile.file_id⟩, [])
  else if cfg.max_batch_size < req.photos.length then
    (BatchOut.critical ⟨req.header, req.bot_id, req.user_id, req.avatar_id, req.batch_id,
      "Batch size exceeds maximum limit of " ++ toString cfg.max_batch_size ++ " files",
      "BATCH_PROCESSING_ERROR", req.photos.map PhotoFile.file_id⟩, [])
  else
    let results := req.photos.map fun p => downloadAndUploadPhoto cfg env p req
    let outcomes := results.map fun pr => classifyGatherResult pr.1
    let successful_uploads := successesOf outcomes
    let failed_uploads := failuresOf outcomes
    let total_size := (successful_uploads.map FileUploadResult.file_size).sum
    (BatchOut.result ⟨req.header, req.bot_id, req.user_id, req.avatar_id, req.batch_id,
      req.photos.length, successful_uploads.length, failed_uploads.length,
      successful_uploads, failed_uploads, env.elapsed, total_size,
      "Batch processing completed: " ++ toString successful_uploads.length ++ "/" ++
        toString req.photos.length ++ " files successful"⟩,
      (results.map Prod.snd).flatten)

/- ## The concurrency limiter (`asyncio.Semaphore`, source lines 37-38
and 294-304) as a transition system: each of the `n` per-item tasks
acquires the semaphore before its fetch/upload phase and releases it
afterwards. -/

/-- Scheduler state: tasks waiting for the semaphore, tasks inside the
`async with semaphore` block (the fetch/upload phase), free permits,
and finished tasks. -/
structure SemState where
  waiting : Nat
  inFlight : Nat
  available : Nat
  done : Nat
deriving DecidableEq, Repr

/-- Initially all `n` tasks wait and all `cap` permits are free. -/
def initSemState (cap n : Nat) : SemState := ⟨n, 0, cap, 0⟩

/-- One scheduler step: a waiting task acquires a free permit, or a
running task finishes and releases its permit. -/
inductive SemStep : SemState → SemState → Prop
  | acquire (s : SemState) (hw : 0 < s.waiting) (ha : 0 < s.available) :
      SemStep s ⟨s.waiting - 1, s.inFlight + 1, s.available - 1, s.done⟩
  | release (s : SemState) (hf : 0 < s.inFlight) :
      SemStep s ⟨s.waiting, s.inFlight - 1, s.available + 1, s.done + 1⟩

/-- States reachable from the start of a batch of `n` items under a
semaphore of capacity `cap`. -/
inductive SemReach (cap n : Nat) : SemState → Prop
  | start : SemReach cap n (initSemState cap n)
  | step (s t : SemState) : SemReach cap n s → SemStep s t → SemReach cap n t
/- ## Helper lemmas -/

theorem startsList_append_self (p q : List Char) : startsList (p ++ q) p = true := by
  induction p with
  | nil => cases q <;> rfl
  | cons a t ih => simp [startsList, ih]

theorem hasSubList_of_starts (l p : List Char) (h : startsList l p = true) :
    hasSubList l p = true := by
  cases l with
  | nil => exact h
  | cons a t => simp [hasSubList, h]

theorem startsList_mem (l p : List Char) (c : Char) (h : startsList l p = true)
    (hc : c ∈ p) : c ∈ l := by
  induction p generalizing l with
  | nil => cases hc
  | cons b t ih =>
    cases l with
    | nil => cases h
    | cons a s =>
      simp only [startsList, Bool.and_eq_true, beq_iff_eq] at h
      rcases List.mem_cons.mp hc with hc | hc
      · exact List.mem_cons.mpr (Or.inl (hc.trans h.1.symm))
      · exact List.mem_cons_of_mem a (ih s h.2 hc)

theorem hasSubList_mem (l p : List Char) (c : Char) (h : hasSubList l p = true)
    (hc : c ∈ p) : c ∈ l := by
  induction l with
  | nil =>
    cases p with
    | nil => cases hc
    | cons b t => simp [hasSubList, startsList] at h
  | cons a t ih =>
    simp only [hasSubList, Bool.or_eq_true] at h
    rcases h with h | h
    · exact startsList_mem _ _ _ h hc
    · exact List.mem_cons_of_mem a (ih h)

theorem corrupted_msg_contains (e : String) :
    strContains ("Corrupted or invalid image file: " ++ e)
      "Corrupted or invalid image file" = true := by
  unfold strContains
  rw [String.data_append]
  have hsplit : ("Corrupted or invalid image file: ").data =
      ("Corrupted or invalid image file").data ++ (": ").data := by decide
  rw [hsplit, List.append_assoc]
  exact hasSubList_of_starts _ _ (startsList_append_self _ _)

theorem digitChar_ne_C (d : Nat) : Nat.digitChar d ≠ 'C' := by
  rcases Nat.lt_or_ge d 16 with h16 | h16
  · interval_cases d <;> decide
  · have hstar : Nat.digitChar d = '*' := by
      unfold Nat.digitChar
      repeat rw [if_neg (by omega)]
    rw [hstar]
    decide

theorem toDigitsCore_no_C (b : Nat) (fuel : Nat) :
    ∀ (n : Nat) (ds : List Char), 'C' ∉ ds → 'C' ∉ Nat.toDigitsCore b fuel n ds := by
  induction fuel with
  | zero => intro n ds hds; exact hds
  | succ f ih =>
    intro n ds hds
    unfold Nat.toDigitsCore
    dsimp only
    split
    · intro hmem
      rcases List.mem_cons.mp hmem with h | h
      · exact digitChar_ne_C _ h.symm
      · exact hds h
    · refine ih _ _ ?_
      intro hmem
      rcases List.mem_cons.mp hmem with h | h
      · exact digitChar_ne_C _ h.symm
      · exact hds h

theorem toString_nat_no_C (n : Nat) : 'C' ∉ (toString n).data := by
  have hrepr : (toString n).data = Nat.toDigits 10 n := rfl
  rw [hrepr]
  unfold Nat.toDigits
  exact toDigitsCore_no_C 10 (n + 1) n [] (by simp)

theorem dims_msg_not_corrupted (w h m : Nat) :
    strContains ("Image dimensions " ++ toString w ++ "x" ++ toString h ++
        " do not meet minimum requirement of " ++ toString m ++
        "px for both width and height")
      "Corrupted or invalid image file" = false := by
  refine Bool.eq_false_iff.mpr fun hcon => ?_
  have hC : 'C' ∈ ("Image dimensions " ++ toString w ++ "x" ++ toString h ++
      " do not meet minimum requirement of " ++ toString m ++
      "px for both width and height").data :=
    hasSubList_mem _ _ 'C' hcon (by decide)
  simp only [String.data_append, List.mem_append] at hC
  rcases hC with ((((((hC | hC) | hC) | hC) | hC) | hC) | hC)
  · revert hC; decide
  · exact toString_nat_no_C w hC
  · revert hC; decide
  · exact toString_nat_no_C h hC
  · revert hC; decide
  · exact toString_nat_no_C m hC
  · revert hC; decide

theorem successes_failures_length (l : List ItemRes) :
    (successesOf l).length + (failuresOf l).length = l.length := by
  induction l with
  | nil => rfl
  | cons a t ih =>
    cases a <;>
      simp only [successesOf, failuresOf, List.filterMap_cons, List.length_cons] at ih ⊢ <;>
      omega

theorem semReach_sum (cap n : Nat) (s : SemState) (h : SemReach cap n s) :
    s.available + s.inFlight = cap := by
  induction h with
  | start => simp [initSemState]
  | step s t _ hstep ih =>
    cases hstep with
    | acquire hw ha => dsimp only at ih ⊢; omega
    | release hf => dsimp only at ih ⊢; omega

/- ## Shared fixtures and predicates for the claim theorems -/

/-- Holds exactly when a call is an S3 upload. -/
def isUploadCall : NetCall → Bool
  | NetCall.uploadCall _ _ _ => true
  | _ => false

/-- No upload interaction appears in the call list. -/
def noUploadCalls (calls : List NetCall) : Prop :=
  calls.all (fun c => !isUploadCall c) = true

/-- The per-item error codes produced by the pipeline (`main.py`'s
`map_error_code_to_reason` enumerates the same vocabulary). -/
def definedErrorCodes : List String :=
  ["TELEGRAM_API_ERROR", "INVALID_TELEGRAM_URL", "FILE_TOO_LARGE", "FILE_TOO_SMALL",
   "UNSUPPORTED_FORMAT", "CORRUPTED_FILE", "IMAGE_TOO_SMALL", "DOWNLOAD_HTTP_ERROR",
   "DOWNLOAD_TIMEOUT", "UNEXPECTED_ERROR"]

/-- A configuration with the documented defaults (10 MB / 10 KB bounds,
450 px minimum dimension, batch cap 100, concurrency cap 5). -/
def modelCfg : Config := ⟨10485760, 10240, 30, 5, 100, 450⟩

/-- A fully healthy collaborator environment. -/
def happyEnv : Env where
  resolve := fun _ => Except.ok "https://api.telegram.org/file/botX/photos/p1.jpg"
  fetch := fun _ => FetchOut.resp ⟨200, 50000, some "image/png", Except.ok (500, 600)⟩
  upload := fun _ => Except.ok "https://bucket.s3.example.com/k"
  datePath := "2026/10/12"
  uuidStr := "uuid-1234"
  elapsed := 3

/-- A two-item training request with explicit (non-blank) keys. -/
def trainReq : UploadRequest :=
  ⟨"train", 7, 42, "av9", some "b1", [⟨"f1", "k1"⟩, ⟨"f2", "k2"⟩]⟩

/-- A training request whose two items share the same file id. -/
def dupIdReq : UploadRequest :=
  ⟨"train", 7, 42, "av9", some "b1", [⟨"f1", "k1"⟩, ⟨"f1", "k1"⟩]⟩

/- ## C1 -/

/-- C1: for every batch request that passes the pre-flight validation
(non-empty, within `max_batch_size`), `_process_batch_training` returns
a `PhotoUploadResult` whose success and failure counts sum to
`total_files`, which equals the length of the input photo list; every
input item produces exactly one outcome. -/
theorem c1_count_invariant (cfg : Config) (env : Env) (req : UploadRequest)
    (hne : req.photos ≠ []) (hsize : req.photos.length ≤ cfg.max_batch_size) :
    ∃ res, (processBatchTraining cfg env req).1 = BatchOut.result res ∧
      res.successful_files + res.failed_files = res.total_files ∧
      res.total_files = req.photos.length ∧
      res.successful_uploads.length = res.successful_files ∧
      res.failed_uploads.length = res.failed_files := by
  unfold processBatchTraining
  rw [if_neg (by simpa [List.isEmpty_iff] using hne), if_neg (by omega)]
  refine ⟨_, rfl, ?_, rfl, rfl, rfl⟩
  dsimp only
  rw [successes_failures_length]
  simp

/-- Witness for C1 at a concrete two-item batch. -/
theorem c1_count_invariant_witness :
    ∃ res, (processBatchTraining modelCfg happyEnv trainReq).1 = BatchOut.result res ∧
      res.successful_files + res.failed_files = res.total_files ∧
      res.total_files = trainReq.photos.length ∧
      res.successful_uploads.length = res.successful_files ∧
      res.failed_uploads.length = res.failed_files :=
  c1_count_invariant modelCfg happyEnv trainReq (by decide) (by decide)

/- ## C2 (corrected) -/

/-- C2 counterexample: a batch whose two items share the same id is
*not* rejected — `_validate_batch` has no duplicate-id check — so the
batch proceeds to per-item processing, resolve calls are issued, and
the result is an ordinary `PhotoUploadResult`, not a critical error. -/
theorem c2_counterexample :
    (∃ r, (processBatchTraining modelCfg happyEnv dupIdReq).1 = BatchOut.result r) ∧
    NetCall.resolveCall "f1" ∈ (processBatchTraining modelCfg happyEnv dupIdReq).2 := by
  exact ⟨⟨_, rfl⟩, by decide⟩

/-- C2 (amended): an empty or oversize batch yields a critical
`PhotoUploadError` whose `error_code` is `BATCH_PROCESSING_ERROR` (the
code has no distinct `VALIDATION_ERROR` kind), listing every input file
id as not attempted, and no resolve, fetch, or upload call is made.
Duplicate ids are not validated. -/
theorem c2_amended_validation (cfg : Config) (env : Env) (req : UploadRequest)
    (h : req.photos = [] ∨ cfg.max_batch_size < req.photos.length) :
    (processBatchTraining cfg env req).2 = [] ∧
    ∃ e, (processBatchTraining cfg env req).1 = BatchOut.critical e ∧
      e.error_code = "BATCH_PROCESSING_ERROR" ∧
      e.failed_files = req.photos.map PhotoFile.file_id := by
  unfold processBatchTraining
  rcases h with h | h
  · rw [if_pos (by simp [h])]
    exact ⟨rfl, _, rfl, rfl, rfl⟩
  · by_cases hemp : req.photos.isEmpty
    · rw [if_pos hemp]
      exact ⟨rfl, _, rfl, rfl, rfl⟩
    · rw [if_neg (by simpa using hemp), if_pos h]
      exact ⟨rfl, _, rfl, rfl, rfl⟩

/-- Witness for the amended C2 at a concrete empty batch. -/
theorem c2_amended_validation_witness :
    (processBatchTraining modelCfg happyEnv ⟨"train", 7, 42, "av9", some "b1", []⟩).2 = [] ∧
    ∃ e, (processBatchTraining modelCfg happyEnv ⟨"train", 7, 42, "av9", some "b1", []⟩).1 =
        BatchOut.critical e ∧
      e.error_code = "BATCH_PROCESSING_ERROR" ∧
      e.failed_files = (⟨"train", 7, 42, "av9", some "b1", []⟩ : UploadRequest).photos.map
        PhotoFile.file_id :=
  c2_amended_validation modelCfg happyEnv _ (Or.inl rfl)

/- ## C7 -/

/-- C7: the full storage path is `bot/user/avatar/key` for the `train`
header and `uploads/inf/bot/user/avatar/key` for the `inf` header, and
for the same owner context and key the two paths never coincide. -/
theorem c7_storage_paths (bot user : Nat) (avatar key : String)
    (batch : Option String) (photosA photosB : List PhotoFile) :
    buildS3Path ⟨"train", bot, user, avatar, batch, photosA⟩ key =
      toString bot ++ "/" ++ toString user ++ "/" ++ avatar ++ "/" ++ key ∧
    buildS3Path ⟨"inf", bot, user, avatar, none, photosB⟩ key =
      "uploads/inf/" ++ toString bot ++ "/" ++ toString user ++ "/" ++ avatar ++ "/" ++ key ∧
    buildS3Path ⟨"train", bot, user, avatar, batch, photosA⟩ key ≠
      buildS3Path ⟨"inf", bot, user, avatar, none, photosB⟩ key := by
  have htrain : buildS3Path ⟨"train", bot, user, avatar, batch, photosA⟩ key =
      toString bot ++ "/" ++ toString user ++ "/" ++ avatar ++ "/" ++ key := by
    unfold buildS3Path
    rw [if_pos rfl]
  have hinf : buildS3Path ⟨"inf", bot, user, avatar, none, photosB⟩ key =
      "uploads/inf/" ++ toString bot ++ "/" ++ toString user ++ "/" ++ avatar ++ "/" ++ key := by
    unfold buildS3Path
    rw [if_neg (show ¬ (("inf" : String) = "train") from by decide)]
    rw [show (("uploads/" ++ "inf") ++ "/" : String) = "uploads/inf/" from by decide]
  refine ⟨htrain, hinf, ?_⟩
  intro heq
  rw [htrain, hinf] at heq
  have hlen := congrArg String.length heq
  simp only [String.length_append] at hlen
  rw [show ("uploads/inf/" : String).length = 12 from by decide] at hlen
  omega

/- ## C9 -/

/-- C9: in the semaphore transition system modelling
`asyncio.Semaphore(self.max_concurrent_downloads)` and the
`async with semaphore` wrapper of `_process_single_photo`, every
reachable scheduler state has at most `max_concurrent_downloads` items
in the fetch/upload phase. -/
theorem c9_concurrency_cap (cfg : Config) (n : Nat) (s : SemState)
    (h : SemReach cfg.max_concurrent_downloads n s) :
    s.inFlight ≤ cfg.max_concurrent_downloads := by
  have hsum := semReach_sum cfg.max_concurrent_downloads n s h
  omega

/-- Witness for C9 with capacity 2 and a batch of 6 items. -/
theorem c9_concurrency_cap_witness :
    (initSemState 2 6).inFlight ≤ (⟨10485760, 10240, 30, 2, 100, 450⟩ : Config).max_concurrent_downloads :=
  c9_concurrency_cap ⟨10485760, 10240, 30, 2, 100, 450⟩ 6 (initSemState 2 6) SemReach.start

/- ## Stage-reduction lemmas for the per-item pipeline -/

theorem generateErrorS3Key_nonblank (photo : PhotoFile)
    (hkey : ¬(photo.s3_key = "" ∨ pyStrip photo.s3_key = "")) :
    generateErrorS3Key photo = Except.ok photo.s3_key := by
  unfold generateErrorS3Key
  rw [if_pos]
  push_neg at hkey
  exact hkey

theorem dlBody_resolved (cfg : Config) (env : Env) (photo : PhotoFile)
    (req : UploadRequest) (u : String) (cs : List NetCall)
    (hkey : ¬(photo.s3_key = "" ∨ pyStrip photo.s3_key = ""))
    (hres : getTelegramFileUrl env photo.file_id = (Except.ok u, cs))
    (hurl : validateUrl u = true) :
    dlBody cfg env photo req =
      match env.fetch u with
      | FetchOut.timeoutExn =>
        (Except.error PyExn.timeoutException, cs ++ [NetCall.fetchCall u])
      | FetchOut.otherExn m =>
        (Except.error (PyExn.generic m), cs ++ [NetCall.fetchCall u])
      | FetchOut.resp r =>
        afterFetch cfg env photo req (buildS3Path req photo.s3_key) r
          (cs ++ [NetCall.fetchCall u]) := by
  unfold dlBody
  rw [if_neg hkey, hres]
  simp [hurl]

theorem dl_wrap_ok (cfg : Config) (env : Env) (photo : PhotoFile) (req : UploadRequest)
    (res : ItemRes) (calls : List NetCall)
    (hbody : dlBody cfg env photo req = (Except.ok res, calls)) :
    downloadAndUploadPhoto cfg env photo req = (Except.ok res, calls) := by
  unfold downloadAndUploadPhoto
  rw [hbody]

theorem dl_wrap_generic (cfg : Config) (env : Env) (photo : PhotoFile) (req : UploadRequest)
    (m : String) (calls : List NetCall)
    (hkey : ¬(photo.s3_key = "" ∨ pyStrip photo.s3_key = ""))
    (hbody : dlBody cfg env photo req = (Except.error (PyExn.generic m), calls)) :
    downloadAndUploadPhoto cfg env photo req =
      (Except.ok (ItemRes.failure ⟨photo.file_id, buildS3Path req photo.s3_key,
        "Unexpected error: " ++ m, "UNEXPECTED_ERROR"⟩), calls) := by
  unfold downloadAndUploadPhoto
  rw [hbody]
  simp [generateErrorS3Key_nonblank photo hkey]

theorem dl_wrap_timeout (cfg : Config) (env : Env) (photo : PhotoFile) (req : UploadRequest)
    (calls : List NetCall)
    (hkey : ¬(photo.s3_key = "" ∨ pyStrip photo.s3_key = ""))
    (hbody : dlBody cfg env photo req = (Except.error PyExn.timeoutException, calls)) :
    downloadAndUploadPhoto cfg env photo req =
      (Except.ok (ItemRes.failure ⟨photo.file_id, buildS3Path req photo.s3_key,
        "Timeout downloading file after " ++ toString cfg.download_timeout ++ "s",
        "DOWNLOAD_TIMEOUT"⟩), calls) := by
  unfold downloadAndUploadPhoto
  rw [hbody]
  simp [generateErrorS3Key_nonblank photo hkey]

theorem dl_wrap_http (cfg : Config) (env : Env) (photo : PhotoFile) (req : UploadRequest)
    (st : Nat) (calls : List NetCall)
    (hkey : ¬(photo.s3_key = "" ∨ pyStrip photo.s3_key = ""))
    (hbody : dlBody cfg env photo req = (Except.error (PyExn.httpStatusError st), calls)) :
    downloadAndUploadPhoto cfg env photo req =
      (Except.ok (ItemRes.failure ⟨photo.file_id, buildS3Path req photo.s3_key,
        "HTTP error downloading file: " ++ toString st, "DOWNLOAD_HTTP_ERROR"⟩), calls) := by
  unfold downloadAndUploadPhoto
  rw [hbody]
  simp [generateErrorS3Key_nonblank photo hkey]

theorem afterFetch_http_error (cfg : Config) (env : Env) (photo : PhotoFile)
    (req : UploadRequest) (full : String) (r : HttpResp) (calls : List NetCall)
    (hst : ¬(200 ≤ r.status ∧ r.status ≤ 299)) :
    afterFetch cfg env photo req full r calls =
      (Except.error (PyExn.httpStatusError r.status), calls) := by
  unfold afterFetch
  rw [if_pos hst]

theorem afterFetch_too_large (cfg : Config) (env : Env) (photo : PhotoFile)
    (req : UploadRequest) (full : String) (r : HttpResp) (calls : List NetCall)
    (hst : 200 ≤ r.status ∧ r.status ≤ 299)
    (hbig : cfg.max_file_size < r.content_size) :
    afterFetch cfg env photo req full r calls =
      (Except.ok (ItemRes.failure ⟨photo.file_id, full,
        "File size " ++ toString r.content_size ++ " exceeds maximum " ++
          toString cfg.max_file_size, "FILE_TOO_LARGE"⟩), calls) := by
  unfold afterFetch
  rw [if_neg (not_not_intro hst), if_pos hbig]

theorem afterFetch_too_small (cfg : Config) (env : Env) (photo : PhotoFile)
    (req : UploadRequest) (full : String) (r : HttpResp) (calls : List NetCall)
    (hst : 200 ≤ r.status ∧ r.status ≤ 299)
    (hbig : ¬ cfg.max_file_size < r.content_size)
    (hsmall : r.content_size < cfg.min_file_size) :
    afterFetch cfg env photo req full r calls =
      (Except.ok (ItemRes.failure ⟨photo.file_id, full,
        "File size " ++ toString r.content_size ++ " is below minimum " ++
          toString cfg.min_file_size, "FILE_TOO_SMALL"⟩), calls) := by
  unfold afterFetch
  rw [if_neg (not_not_intro hst), if_neg hbig, if_pos hsmall]

theorem afterFetch_bad_format (cfg : Config) (env : Env) (photo : PhotoFile)
    (req : UploadRequest) (full : String) (r : HttpResp) (calls : List NetCall)
    (hst : 200 ≤ r.status ∧ r.status ≤ 299)
    (hbig : ¬ cfg.max_file_size < r.content_size)
    (hsmall : ¬ r.content_size < cfg.min_file_size)
    (htype : supportedContentTypes.contains (r.content_type.getD "image/jpeg") = false) :
    afterFetch cfg env photo req full r calls =
      (Except.ok (ItemRes.failure ⟨photo.file_id, full,
        "Unsupported file format: " ++ r.content_type.getD "image/jpeg",
        "UNSUPPORTED_FORMAT"⟩), calls) := by
  unfold afterFetch
  rw [if_neg (not_not_intro hst), if_neg hbig, if_neg hsmall]
  dsimp only
  rw [if_pos htype]

theorem afterFetch_good (cfg : Config) (env : Env) (photo : PhotoFile)
    (req : UploadRequest) (full : String) (r : HttpResp) (calls : List NetCall)
    (hst : 200 ≤ r.status ∧ r.status ≤ 299)
    (hbig : ¬ cfg.max_file_size < r.content_size)
    (hsmall : ¬ r.content_size < cfg.min_file_size)
    (htype : supportedContentTypes.contains (r.content_type.getD "image/jpeg") = true) :
    afterFetch cfg env photo req full r calls =
      afterType cfg env photo req full r (r.content_type.getD "image/jpeg") calls := by
  unfold afterFetch
  rw [if_neg (not_not_intro hst), if_neg hbig, if_neg hsmall]
  dsimp only
  rw [if_neg (by rw [htype]; decide)]

theorem afterType_train_corrupt (cfg : Config) (env : Env) (photo : PhotoFile)
    (req : UploadRequest) (full ct m : String) (r : HttpResp) (calls : List NetCall)
    (hhdr : req.header = "train") (hdec : r.decode = Except.error m) :
    afterType cfg env photo req full r ct calls =
      (Except.ok (ItemRes.failure ⟨photo.file_id, full,
        "Corrupted or invalid image file: " ++ m, "CORRUPTED_FILE"⟩), calls) := by
  unfold afterType validateImageDimensions
  rw [if_pos hhdr, hdec]
  simp [corrupted_msg_contains]

theorem afterType_train_small (cfg : Config) (env : Env) (photo : PhotoFile)
    (req : UploadRequest) (full ct : String) (r : HttpResp) (w h : Nat)
    (calls : List NetCall)
    (hhdr : req.header = "train") (hdec : r.decode = Except.ok (w, h))
    (hdim : w < cfg.min_image_dimension ∨ h < cfg.min_image_dimension) :
    afterType cfg env photo req full r ct calls =
      (Except.ok (ItemRes.failure ⟨photo.file_id, full,
        "Image dimensions " ++ toString w ++ "x" ++ toString h ++
          " do not meet minimum requirement of " ++ toString cfg.min_image_dimension ++
          "px for both width and height", "IMAGE_TOO_SMALL"⟩), calls) := by
  unfold afterType validateImageDimensions
  rw [if_pos hhdr, hdec]
  simp [if_pos hdim, dims_msg_not_corrupted]

theorem afterType_train_valid (cfg : Config) (env : Env) (photo : PhotoFile)
    (req : UploadRequest) (full ct : String) (r : HttpResp) (w h : Nat)
    (calls : List NetCall)
    (hhdr : req.header = "train") (hdec : r.decode = Except.ok (w, h))
    (hdim : ¬(w < cfg.min_image_dimension ∨ h < cfg.min_image_dimension)) :
    afterType cfg env photo req full r ct calls =
      uploadStage env photo req full r ct w h calls := by
  unfold afterType validateImageDimensions
  rw [if_pos hhdr, hdec]
  simp [if_neg hdim]

theorem afterType_inf_decoded (cfg : Config) (env : Env) (photo : PhotoFile)
    (req : UploadRequest) (full ct : String) (r : HttpResp) (w h : Nat)
    (calls : List NetCall)
    (hhdr : ¬ req.header = "train") (hdec : r.decode = Except.ok (w, h)) :
    afterType cfg env photo req full r ct calls =
      uploadStage env photo req full r ct w h calls := by
  unfold afterType
  rw [if_neg hhdr, hdec]

theorem afterType_inf_undecoded (cfg : Config) (env : Env) (photo : PhotoFile)
    (req : UploadRequest) (full ct m : String) (r : HttpResp) (calls : List NetCall)
    (hhdr : ¬ req.header = "train") (hdec : r.decode = Except.error m) :
    afterType cfg env photo req full r ct calls =
      uploadStage env photo req full r ct 0 0 calls := by
  unfold afterType
  rw [if_neg hhdr, hdec]

theorem uploadStage_ok (env : Env) (photo : PhotoFile) (req : UploadRequest)
    (full ct url : String) (r : HttpResp) (w h : Nat) (calls : List NetCall)
    (hup : env.upload full = Except.ok url) :
    uploadStage env photo req full r ct w h calls =
      (Except.ok (ItemRes.success ⟨photo.file_id, full, url, r.content_size,
        env.elapsed, ct, w, h⟩),
       calls ++ [NetCall.uploadCall full ct (buildMetadata req photo env w h)]) := by
  unfold uploadStage
  rw [hup]

theorem uploadStage_err (env : Env) (photo : PhotoFile) (req : UploadRequest)
    (full ct m : String) (r : HttpResp) (w h : Nat) (calls : List NetCall)
    (hup : env.upload full = Except.error m) :
    uploadStage env photo req full r ct w h calls =
      (Except.error (PyExn.generic m),
       calls ++ [NetCall.uploadCall full ct (buildMetadata req photo env w h)]) := by
  unfold uploadStage
  rw [hup]

theorem dlBody_blank (cfg : Config) (env : Env) (photo : PhotoFile) (req : UploadRequest)
    (hkey : photo.s3_key = "" ∨ pyStrip photo.s3_key = "") :
    dlBody cfg env photo req = (Except.error genKeyKwargError, []) := by
  unfold dlBody
  rw [if_pos hkey]

theorem generateErrorS3Key_blank (photo : PhotoFile)
    (hkey : photo.s3_key = "" ∨ pyStrip photo.s3_key = "") :
    generateErrorS3Key photo = Except.error genKeyKwargError := by
  unfold generateErrorS3Key
  rw [if_neg]
  rintro ⟨h1, h2⟩
  rcases hkey with h | h
  · exact h1 h
  · exact h2 h

theorem dl_blank (cfg : Config) (env : Env) (photo : PhotoFile) (req : UploadRequest)
    (hkey : photo.s3_key = "" ∨ pyStrip photo.s3_key = "") :
    downloadAndUploadPhoto cfg env photo req = (Except.error genKeyKwargError, []) := by
  unfold downloadAndUploadPhoto
  rw [dlBody_blank cfg env photo req hkey]
  simp [generateErrorS3Key_blank photo hkey]

theorem dl_resolution_error (cfg : Config) (env : Env) (photo : PhotoFile)
    (req : UploadRequest) (m : String) (cs : List NetCall)
    (hkey : ¬(photo.s3_key = "" ∨ pyStrip photo.s3_key = ""))
    (hres : getTelegramFileUrl env photo.file_id = (Except.error m, cs)) :
    downloadAndUploadPhoto cfg env photo req =
      (Except.ok (ItemRes.failure ⟨photo.file_id, buildS3Path req photo.s3_key,
        "Failed to get Telegram file URL: " ++ m, "TELEGRAM_API_ERROR"⟩), cs) := by
  apply dl_wrap_ok
  unfold dlBody
  rw [if_neg hkey, hres]

theorem dl_invalid_url (cfg : Config) (env : Env) (photo : PhotoFile)
    (req : UploadRequest) (u : String) (cs : List NetCall)
    (hkey : ¬(photo.s3_key = "" ∨ pyStrip photo.s3_key = ""))
    (hres : getTelegramFileUrl env photo.file_id = (Except.ok u, cs))
    (hurl : validateUrl u = false) :
    downloadAndUploadPhoto cfg env photo req =
      (Except.ok (ItemRes.failure ⟨photo.file_id, buildS3Path req photo.s3_key,
        "Invalid Telegram file URL: " ++ u, "INVALID_TELEGRAM_URL"⟩), cs) := by
  apply dl_wrap_ok
  unfold dlBody
  rw [if_neg hkey, hres]
  simp [hurl]

theorem getTelegramFileUrl_no_upload (env : Env) (fid : String)
    (e : Except String String) (cs : List NetCall)
    (h : getTelegramFileUrl env fid = (e, cs)) : noUploadCalls cs := by
  unfold getTelegramFileUrl at h
  split at h
  · injection h with h1 h2
    subst h2
    rfl
  · injection h with h1 h2
    subst h2
    rfl

theorem noUploadCalls_append (a b : List NetCall)
    (ha : noUploadCalls a) (hb : noUploadCalls b) : noUploadCalls (a ++ b) := by
  unfold noUploadCalls at ha hb ⊢
  rw [List.all_append, ha, hb]
  rfl

/- ## C3 -/

/-- C3: for a fetched response (key generated, URL resolved and valid,
2xx status), a byte size below `min_file_size` yields
`Failure(FILE_TOO_SMALL)`, a byte size above `max_file_size` yields
`Failure(FILE_TOO_LARGE)`, and a declared content type outside the
supported image set (with the size in range, the check order of the
source) yields `Failure(UNSUPPORTED_FORMAT)`; in all three cases no
upload call is made. -/
theorem c3_size_and_format_validation
    (cfg : Config) (env : Env) (photo : PhotoFile) (req : UploadRequest)
    (u ct : String) (cs : List NetCall) (r : HttpResp)
    (hkey : ¬(photo.s3_key = "" ∨ pyStrip photo.s3_key = ""))
    (hres : getTelegramFileUrl env photo.file_id = (Except.ok u, cs))
    (hurl : validateUrl u = true)
    (hfetch : env.fetch u = FetchOut.resp r)
    (hst : 200 ≤ r.status ∧ r.status ≤ 299)
    (hminmax : cfg.min_file_size ≤ cfg.max_file_size)
    (hct : r.content_type = some ct) :
    (r.content_size < cfg.min_file_size →
      (∃ e, (downloadAndUploadPhoto cfg env photo req).1 = Except.ok (ItemRes.failure e) ∧
        e.error_code = "FILE_TOO_SMALL") ∧
      noUploadCalls (downloadAndUploadPhoto cfg env photo req).2) ∧
    (cfg.max_file_size < r.content_size →
      (∃ e, (downloadAndUploadPhoto cfg env photo req).1 = Except.ok (ItemRes.failure e) ∧
        e.error_code = "FILE_TOO_LARGE") ∧
      noUploadCalls (downloadAndUploadPhoto cfg env photo req).2) ∧
    (cfg.min_file_size ≤ r.content_size → r.content_size ≤ cfg.max_file_size →
      supportedContentTypes.contains ct = false →
      (∃ e, (downloadAndUploadPhoto cfg env photo req).1 = Except.ok (ItemRes.failure e) ∧
        e.error_code = "UNSUPPORTED_FORMAT") ∧
      noUploadCalls (downloadAndUploadPhoto cfg env photo req).2) := by
  have hbase : dlBody cfg env photo req =
      afterFetch cfg env photo req (buildS3Path req photo.s3_key) r
        (cs ++ [NetCall.fetchCall u]) := by
    rw [dlBody_resolved cfg env photo req u cs hkey hres hurl, hfetch]
  have hnc : noUploadCalls (cs ++ [NetCall.fetchCall u]) :=
    noUploadCalls_append _ _ (getTelegramFileUrl_no_upload env photo.file_id _ cs hres) rfl
  refine ⟨fun hsmall => ?_, fun hbig => ?_, fun hlo hhi htype => ?_⟩
  · have hdl := dl_wrap_ok cfg env photo req _ _
      (by rw [hbase, afterFetch_too_small cfg env photo req _ r _ hst (by omega) hsmall])
    exact ⟨⟨_, by rw [hdl], rfl⟩, by rw [hdl]; exact hnc⟩
  · have hdl := dl_wrap_ok cfg env photo req _ _
      (by rw [hbase, afterFetch_too_large cfg env photo req _ r _ hst hbig])
    exact ⟨⟨_, by rw [hdl], rfl⟩, by rw [hdl]; exact hnc⟩
  · have htype2 : supportedContentTypes.contains (r.content_type.getD "image/jpeg") = false := by
      rw [hct]
      exact htype
    have hdl := dl_wrap_ok cfg env photo req _ _
      (by rw [hbase, afterFetch_bad_format cfg env photo req _ r _ hst (by omega) (by omega) htype2])
    exact ⟨⟨_, by rw [hdl], rfl⟩, by rw [hdl]; exact hnc⟩

/-- A healthy environment whose fetched file is only 100 bytes. -/
def tinyFileEnv : Env :=
  { happyEnv with fetch := fun _ => FetchOut.resp ⟨200, 100, some "image/png", Except.ok (500, 600)⟩ }

/-- Witness for C3 at a 100-byte fetch under the default 10 KB minimum. -/
theorem c3_size_and_format_validation_witness :
    ((⟨200, 100, some "image/png", Except.ok (500, 600)⟩ : HttpResp).content_size <
        modelCfg.min_file_size →
      (∃ e, (downloadAndUploadPhoto modelCfg tinyFileEnv ⟨"f1", "k1"⟩ trainReq).1 =
          Except.ok (ItemRes.failure e) ∧ e.error_code = "FILE_TOO_SMALL") ∧
      noUploadCalls (downloadAndUploadPhoto modelCfg tinyFileEnv ⟨"f1", "k1"⟩ trainReq).2) ∧
    (modelCfg.max_file_size < (⟨200, 100, some "image/png", Except.ok (500, 600)⟩ : HttpResp).content_size →
      (∃ e, (downloadAndUploadPhoto modelCfg tinyFileEnv ⟨"f1", "k1"⟩ trainReq).1 =
          Except.ok (ItemRes.failure e) ∧ e.error_code = "FILE_TOO_LARGE") ∧
      noUploadCalls (downloadAndUploadPhoto modelCfg tinyFileEnv ⟨"f1", "k1"⟩ trainReq).2) ∧
    (modelCfg.min_file_size ≤ (⟨200, 100, some "image/png", Except.ok (500, 600)⟩ : HttpResp).content_size →
      (⟨200, 100, some "image/png", Except.ok (500, 600)⟩ : HttpResp).content_size ≤ modelCfg.max_file_size →
      supportedContentTypes.contains "image/png" = false →
      (∃ e, (downloadAndUploadPhoto modelCfg tinyFileEnv ⟨"f1", "k1"⟩ trainReq).1 =
          Except.ok (ItemRes.failure e) ∧ e.error_code = "UNSUPPORTED_FORMAT") ∧
      noUploadCalls (downloadAndUploadPhoto modelCfg tinyFileEnv ⟨"f1", "k1"⟩ trainReq).2) :=
  c3_size_and_format_validation modelCfg tinyFileEnv ⟨"f1", "k1"⟩ trainReq
    "https://api.telegram.org/file/botX/photos/p1.jpg" "image/png"
    [NetCall.resolveCall "f1"] ⟨200, 100, some "image/png", Except.ok (500, 600)⟩
    (by decide) (by decide) (by decide) (by decide) (by decide) (by decide) (by decide)

/- ## C4 -/

/-- C4: with the fetch and size/format checks passed, a Train item whose
content fails to decode yields `Failure(CORRUPTED_FILE)` and one whose
decoded width or height is below `min_image_dimension` yields
`Failure(IMAGE_TOO_SMALL)`; a non-Train (inference) item with the same
content succeeds when the upload succeeds, keeping the decoded
dimensions, and a decode failure does not fail it — the dimensions
default to `0, 0`. -/
theorem c4_dimension_validation
    (cfg : Config) (env : Env) (photo : PhotoFile) (req : UploadRequest)
    (u : String) (cs : List NetCall) (r : HttpResp)
    (hkey : ¬(photo.s3_key = "" ∨ pyStrip photo.s3_key = ""))
    (hres : getTelegramFileUrl env photo.file_id = (Except.ok u, cs))
    (hurl : validateUrl u = true)
    (hfetch : env.fetch u = FetchOut.resp r)
    (hst : 200 ≤ r.status ∧ r.status ≤ 299)
    (hbig : ¬ cfg.max_file_size < r.content_size)
    (hsmall : ¬ r.content_size < cfg.min_file_size)
    (htype : supportedContentTypes.contains (r.content_type.getD "image/jpeg") = true) :
    (req.header = "train" → ∀ m, r.decode = Except.error m →
      ∃ e, (downloadAndUploadPhoto cfg env photo req).1 = Except.ok (ItemRes.failure e) ∧
        e.error_code = "CORRUPTED_FILE") ∧
    (req.header = "train" → ∀ w h, r.decode = Except.ok (w, h) →
      (w < cfg.min_image_dimension ∨ h < cfg.min_image_dimension) →
      ∃ e, (downloadAndUploadPhoto cfg env photo req).1 = Except.ok (ItemRes.failure e) ∧
        e.error_code = "IMAGE_TOO_SMALL") ∧
    (¬ req.header = "train" → ∀ w h, r.decode = Except.ok (w, h) →
      ∀ url, env.upload (buildS3Path req photo.s3_key) = Except.ok url →
      ∃ s, (downloadAndUploadPhoto cfg env photo req).1 = Except.ok (ItemRes.success s) ∧
        s.width = w ∧ s.height = h) ∧
    (¬ req.header = "train" → ∀ m, r.decode = Except.error m →
      ∀ url, env.upload (buildS3Path req photo.s3_key) = Except.ok url →
      ∃ s, (downloadAndUploadPhoto cfg env photo req).1 = Except.ok (ItemRes.success s) ∧
        s.width = 0 ∧ s.height = 0) := by
  have hbase : dlBody cfg env photo req =
      afterType cfg env photo req (buildS3Path req photo.s3_key) r
        (r.content_type.getD "image/jpeg") (cs ++ [NetCall.fetchCall u]) := by
    rw [dlBody_resolved cfg env photo req u cs hkey hres hurl, hfetch]
    exact afterFetch_good cfg env photo req _ r _ hst hbig hsmall htype
  refine ⟨fun hhdr m hdec => ?_, fun hhdr w h hdec hdim => ?_,
    fun hhdr w h hdec url hup => ?_, fun hhdr m hdec url hup => ?_⟩
  · have hdl := dl_wrap_ok cfg env photo req _ _
      (by rw [hbase, afterType_train_corrupt cfg env photo req _ _ m r _ hhdr hdec])
    exact ⟨_, by rw [hdl], rfl⟩
  · have hdl := dl_wrap_ok cfg env photo req _ _
      (by rw [hbase, afterType_train_small cfg env photo req _ _ r w h _ hhdr hdec hdim])
    exact ⟨_, by rw [hdl], rfl⟩
  · have hdl := dl_wrap_ok cfg env photo req _ _
      (by rw [hbase, afterType_inf_decoded cfg env photo req _ _ r w h _ hhdr hdec,
        uploadStage_ok env photo req _ _ url r w h _ hup])
    exact ⟨_, by rw [hdl], rfl, rfl⟩
  · have hdl := dl_wrap_ok cfg env photo req _ _
      (by rw [hbase, afterType_inf_undecoded cfg env photo req _ _ m r _ hhdr hdec,
        uploadStage_ok env photo req _ _ url r 0 0 _ hup])
    exact ⟨_, by rw [hdl], rfl, rfl⟩

/-- An environment whose fetched image is 449 px wide. -/
def smallImageEnv : Env :=
  { happyEnv with fetch := fun _ => FetchOut.resp ⟨200, 50000, some "image/png", Except.ok (449, 600)⟩ }

/-- Witness for C4 at a 449x600 image: Train rejects it with
`IMAGE_TOO_SMALL`; inference (`header = "inf"`) uploads it. -/
theorem c4_dimension_validation_witness :
    ((⟨"inf", 7, 42, "av9", none, [⟨"f1", "k1"⟩]⟩ : UploadRequest).header = "train" →
      ∀ m, (⟨200, 50000, some "image/png", Except.ok (449, 600)⟩ : HttpResp).decode = Except.error m →
      ∃ e, (downloadAndUploadPhoto modelCfg smallImageEnv ⟨"f1", "k1"⟩
          ⟨"inf", 7, 42, "av9", none, [⟨"f1", "k1"⟩]⟩).1 = Except.ok (ItemRes.failure e) ∧
        e.error_code = "CORRUPTED_FILE") ∧
    ((⟨"inf", 7, 42, "av9", none, [⟨"f1", "k1"⟩]⟩ : UploadRequest).header = "train" →
      ∀ w h, (⟨200, 50000, some "image/png", Except.ok (449, 600)⟩ : HttpResp).decode = Except.ok (w, h) →
      (w < modelCfg.min_image_dimension ∨ h < modelCfg.min_image_dimension) →
      ∃ e, (downloadAndUploadPhoto modelCfg smallImageEnv ⟨"f1", "k1"⟩
          ⟨"inf", 7, 42, "av9", none, [⟨"f1", "k1"⟩]⟩).1 = Except.ok (ItemRes.failure e) ∧
        e.error_code = "IMAGE_TOO_SMALL") ∧
    (¬ (⟨"inf", 7, 42, "av9", none, [⟨"f1", "k1"⟩]⟩ : UploadRequest).header = "train" →
      ∀ w h, (⟨200, 50000, some "image/png", Except.ok (449, 600)⟩ : HttpResp).decode = Except.ok (w, h) →
      ∀ url, smallImageEnv.upload (buildS3Path ⟨"inf", 7, 42, "av9", none, [⟨"f1", "k1"⟩]⟩ "k1") =
        Except.ok url →
      ∃ s, (downloadAndUploadPhoto modelCfg smallImageEnv ⟨"f1", "k1"⟩
          ⟨"inf", 7, 42, "av9", none, [⟨"f1", "k1"⟩]⟩).1 = Except.ok (ItemRes.success s) ∧
        s.width = w ∧ s.height = h) ∧
    (¬ (⟨"inf", 7, 42, "av9", none, [⟨"f1", "k1"⟩]⟩ : UploadRequest).header = "train" →
      ∀ m, (⟨200, 50000, some "image/png", Except.ok (449, 600)⟩ : HttpResp).decode = Except.error m →
      ∀ url, smallImageEnv.upload (buildS3Path ⟨"inf", 7, 42, "av9", none, [⟨"f1", "k1"⟩]⟩ "k1") =
        Except.ok url →
      ∃ s, (downloadAndUploadPhoto modelCfg smallImageEnv ⟨"f1", "k1"⟩
          ⟨"inf", 7, 42, "av9", none, [⟨"f1", "k1"⟩]⟩).1 = Except.ok (ItemRes.success s) ∧
        s.width = 0 ∧ s.height = 0) :=
  c4_dimension_validation modelCfg smallImageEnv ⟨"f1", "k1"⟩
    ⟨"inf", 7, 42, "av9", none, [⟨"f1", "k1"⟩]⟩
    "https://api.telegram.org/file/botX/photos/p1.jpg"
    [NetCall.resolveCall "f1"] ⟨200, 50000, some "image/png", Except.ok (449, 600)⟩
    (by decide) (by decide) (by decide) (by decide) (by decide) (by decide) (by decide) (by decide)

/- ## C5 -/

/-- C5: once an item's key is built and its URL resolved and validated,
a non-2xx response is classified `DOWNLOAD_HTTP_ERROR`, a timeout
`DOWNLOAD_TIMEOUT`, any other transport exception `UNEXPECTED_ERROR`,
and an S3 upload fault `UNEXPECTED_ERROR`; in every case the failure
record carries the attempted storage key `buildS3Path req photo.s3_key`
even though nothing was persisted. -/
theorem c5_transport_fault_classification
    (cfg : Config) (env : Env) (photo : PhotoFile) (req : UploadRequest)
    (u : String) (cs : List NetCall)
    (hkey : ¬(photo.s3_key = "" ∨ pyStrip photo.s3_key = ""))
    (hres : getTelegramFileUrl env photo.file_id = (Except.ok u, cs))
    (hurl : validateUrl u = true) :
    (∀ r, env.fetch u = FetchOut.resp r → ¬(200 ≤ r.status ∧ r.status ≤ 299) →
      (downloadAndUploadPhoto cfg env photo req).1 = Except.ok (ItemRes.failure
        ⟨photo.file_id, buildS3Path req photo.s3_key,
         "HTTP error downloading file: " ++ toString r.status, "DOWNLOAD_HTTP_ERROR"⟩)) ∧
    (env.fetch u = FetchOut.timeoutExn →
      (downloadAndUploadPhoto cfg env photo req).1 = Except.ok (ItemRes.failure
        ⟨photo.file_id, buildS3Path req photo.s3_key,
         "Timeout downloading file after " ++ toString cfg.download_timeout ++ "s",
         "DOWNLOAD_TIMEOUT"⟩)) ∧
    (∀ m, env.fetch u = FetchOut.otherExn m →
      (downloadAndUploadPhoto cfg env photo req).1 = Except.ok (ItemRes.failure
        ⟨photo.file_id, buildS3Path req photo.s3_key,
         "Unexpected error: " ++ m, "UNEXPECTED_ERROR"⟩)) ∧
    (∀ r w h m, env.fetch u = FetchOut.resp r → 200 ≤ r.status ∧ r.status ≤ 299 →
      ¬ cfg.max_file_size < r.content_size → ¬ r.content_size < cfg.min_file_size →
      supportedContentTypes.contains (r.content_type.getD "image/jpeg") = true →
      r.decode = Except.ok (w, h) →
      ¬(w < cfg.min_image_dimension ∨ h < cfg.min_image_dimension) →
      env.upload (buildS3Path req photo.s3_key) = Except.error m →
      (downloadAndUploadPhoto cfg env photo req).1 = Except.ok (ItemRes.failure
        ⟨photo.file_id, buildS3Path req photo.s3_key,
         "Unexpected error: " ++ m, "UNEXPECTED_ERROR"⟩)) := by
  refine ⟨fun r hfetch hst => ?_, fun hfetch => ?_, fun m hfetch => ?_,
    fun r w h m hfetch hst hbig hsmall htype hdec hdim hup => ?_⟩
  · have hbody : dlBody cfg env photo req =
        (Except.error (PyExn.httpStatusError r.status), cs ++ [NetCall.fetchCall u]) := by
      rw [dlBody_resolved cfg env photo req u cs hkey hres hurl, hfetch]
      exact afterFetch_http_error cfg env photo req _ r _ hst
    rw [dl_wrap_http cfg env photo req r.status _ hkey hbody]
  · have hbody : dlBody cfg env photo req =
        (Except.error PyExn.timeoutException, cs ++ [NetCall.fetchCall u]) := by
      rw [dlBody_resolved cfg env photo req u cs hkey hres hurl, hfetch]
    rw [dl_wrap_timeout cfg env photo req _ hkey hbody]
  · have hbody : dlBody cfg env photo req =
        (Except.error (PyExn.generic m), cs ++ [NetCall.fetchCall u]) := by
      rw [dlBody_resolved cfg env photo req u cs hkey hres hurl, hfetch]
    rw [dl_wrap_generic cfg env photo req m _ hkey hbody]
  · have hup2 : uploadStage env photo req (buildS3Path req photo.s3_key) r
        (r.content_type.getD "image/jpeg") w h (cs ++ [NetCall.fetchCall u]) =
        (Except.error (PyExn.generic m),
         (cs ++ [NetCall.fetchCall u]) ++ [NetCall.uploadCall (buildS3Path req photo.s3_key)
           (r.content_type.getD "image/jpeg") (buildMetadata req photo env w h)]) :=
      uploadStage_err env photo req _ _ m r w h _ hup
    have hbody : dlBody cfg env photo req =
        (Except.error (PyExn.generic m),
         (cs ++ [NetCall.fetchCall u]) ++ [NetCall.uploadCall (buildS3Path req photo.s3_key)
           (r.content_type.getD "image/jpeg") (buildMetadata req photo env w h)]) := by
      rw [dlBody_resolved cfg env photo req u cs hkey hres hurl, hfetch]
      by_cases hhdr : req.header = "train"
      · rw [show (match FetchOut.resp r with
          | FetchOut.timeoutExn => (Except.error PyExn.timeoutException, cs ++ [NetCall.fetchCall u])
          | FetchOut.otherExn m => (Except.error (PyExn.generic m), cs ++ [NetCall.fetchCall u])
          | FetchOut.resp r => afterFetch cfg env photo req (buildS3Path req photo.s3_key) r
              (cs ++ [NetCall.fetchCall u])) =
            afterFetch cfg env photo req (buildS3Path req photo.s3_key) r
              (cs ++ [NetCall.fetchCall u]) from rfl,
          afterFetch_good cfg env photo req _ r _ hst hbig hsmall htype,
          afterType_train_valid cfg env photo req _ _ r w h _ hhdr hdec hdim, hup2]
      · rw [show (match FetchOut.resp r with
          | FetchOut.timeoutExn => (Except.error PyExn.timeoutException, cs ++ [NetCall.fetchCall u])
          | FetchOut.otherExn m => (Except.error (PyExn.generic m), cs ++ [NetCall.fetchCall u])
          | FetchOut.resp r => afterFetch cfg env photo req (buildS3Path req photo.s3_key) r
              (cs ++ [NetCall.fetchCall u])) =
            afterFetch cfg env photo req (buildS3Path req photo.s3_key) r
              (cs ++ [NetCall.fetchCall u]) from rfl,
          afterFetch_good cfg env photo req _ r _ hst hbig hsmall htype,
          afterType_inf_decoded cfg env photo req _ _ r w h _ hhdr hdec, hup2]
    rw [dl_wrap_generic cfg env photo req m _ hkey hbody]

/-- An environment whose content fetch times out. -/
def timeoutEnv : Env := { happyEnv with fetch := fun _ => FetchOut.timeoutExn }

/-- Witness for C5 at a timing-out fetch. -/
theorem c5_transport_fault_classification_witness :
    (∀ r, timeoutEnv.fetch "https://api.telegram.org/file/botX/photos/p1.jpg" = FetchOut.resp r →
      ¬(200 ≤ r.status ∧ r.status ≤ 299) →
      (downloadAndUploadPhoto modelCfg timeoutEnv ⟨"f1", "k1"⟩ trainReq).1 =
        Except.ok (ItemRes.failure ⟨"f1", buildS3Path trainReq "k1",
          "HTTP error downloading file: " ++ toString r.status, "DOWNLOAD_HTTP_ERROR"⟩)) ∧
    (timeoutEnv.fetch "https://api.telegram.org/file/botX/photos/p1.jpg" = FetchOut.timeoutExn →
      (downloadAndUploadPhoto modelCfg timeoutEnv ⟨"f1", "k1"⟩ trainReq).1 =
        Except.ok (ItemRes.failure ⟨"f1", buildS3Path trainReq "k1",
          "Timeout downloading file after " ++ toString modelCfg.download_timeout ++ "s",
          "DOWNLOAD_TIMEOUT"⟩)) ∧
    (∀ m, timeoutEnv.fetch "https://api.telegram.org/file/botX/photos/p1.jpg" = FetchOut.otherExn m →
      (downloadAndUploadPhoto modelCfg timeoutEnv ⟨"f1", "k1"⟩ trainReq).1 =
        Except.ok (ItemRes.failure ⟨"f1", buildS3Path trainReq "k1",
          "Unexpected error: " ++ m, "UNEXPECTED_ERROR"⟩)) ∧
    (∀ r w h m, timeoutEnv.fetch "https://api.telegram.org/file/botX/photos/p1.jpg" = FetchOut.resp r →
      200 ≤ r.status ∧ r.status ≤ 299 →
      ¬ modelCfg.max_file_size < r.content_size → ¬ r.content_size < modelCfg.min_file_size →
      supportedContentTypes.contains (r.content_type.getD "image/jpeg") = true →
      r.decode = Except.ok (w, h) →
      ¬(w < modelCfg.min_image_dimension ∨ h < modelCfg.min_image_dimension) →
      timeoutEnv.upload (buildS3Path trainReq "k1") = Except.error m →
      (downloadAndUploadPhoto modelCfg timeoutEnv ⟨"f1", "k1"⟩ trainReq).1 =
        Except.ok (ItemRes.failure ⟨"f1", buildS3Path trainReq "k1",
          "Unexpected error: " ++ m, "UNEXPECTED_ERROR"⟩)) :=
  c5_transport_fault_classification modelCfg timeoutEnv ⟨"f1", "k1"⟩ trainReq
    "https://api.telegram.org/file/botX/photos/p1.jpg" [NetCall.resolveCall "f1"]
    (by decide) (by decide) (by decide)

/- ## C6 -/

theorem error_code_mem (a b c d : String) (hd : d ∈ definedErrorCodes) :
    (FileUploadError.mk a b c d).error_code ∈ definedErrorCodes := hd

theorem dl_ok_failure_code (cfg : Config) (env : Env) (photo : PhotoFile)
    (req : UploadRequest) (e : FileUploadError)
    (h : (downloadAndUploadPhoto cfg env photo req).1 = Except.ok (ItemRes.failure e)) :
    e.error_code ∈ definedErrorCodes := by
  by_cases hkey : photo.s3_key = "" ∨ pyStrip photo.s3_key = ""
  · rw [dl_blank cfg env photo req hkey] at h
    simp at h
  · obtain ⟨eu, cs, hG⟩ : ∃ eu cs, getTelegramFileUrl env photo.file_id = (eu, cs) :=
      ⟨_, _, rfl⟩
    cases eu with
    | error m =>
      rw [dl_resolution_error cfg env photo req m cs hkey hG] at h
      simp at h
      subst h
      exact error_code_mem _ _ _ _ (by decide)
    | ok u =>
      cases hurl : validateUrl u with
      | false =>
        rw [dl_invalid_url cfg env photo req u cs hkey hG hurl] at h
        simp at h
        subst h
        exact error_code_mem _ _ _ _ (by decide)
      | true =>
        cases hF : env.fetch u with
        | timeoutExn =>
          rw [dl_wrap_timeout cfg env photo req _ hkey
            (by rw [dlBody_resolved cfg env photo req u cs hkey hG hurl, hF])] at h
          simp at h
          subst h
          exact error_code_mem _ _ _ _ (by decide)
        | otherExn m =>
          rw [dl_wrap_generic cfg env photo req m _ hkey
            (by rw [dlBody_resolved cfg env photo req u cs hkey hG hurl, hF])] at h
          simp at h
          subst h
          exact error_code_mem _ _ _ _ (by decide)
        | resp r =>
          have hbase : dlBody cfg env photo req =
              afterFetch cfg env photo req (buildS3Path req photo.s3_key) r
                (cs ++ [NetCall.fetchCall u]) := by
            rw [dlBody_resolved cfg env photo req u cs hkey hG hurl, hF]
          by_cases hst : 200 ≤ r.status ∧ r.status ≤ 299
          · by_cases hbig : cfg.max_file_size < r.content_size
            · rw [dl_wrap_ok cfg env photo req _ _
                (by rw [hbase, afterFetch_too_large cfg env photo req _ r _ hst hbig])] at h
              simp at h
              subst h
              exact error_code_mem _ _ _ _ (by decide)
            · by_cases hsmall : r.content_size < cfg.min_file_size
              · rw [dl_wrap_ok cfg env photo req _ _
                  (by rw [hbase,
                    afterFetch_too_small cfg env photo req _ r _ hst hbig hsmall])] at h
                simp at h
                subst h
                exact error_code_mem _ _ _ _ (by decide)
              · cases htype : supportedContentTypes.contains (r.content_type.getD "image/jpeg") with
                | false =>
                  rw [dl_wrap_ok cfg env photo req _ _
                    (by rw [hbase,
                      afterFetch_bad_format cfg env photo req _ r _ hst hbig hsmall htype])] at h
                  simp at h
                  subst h
                  exact error_code_mem _ _ _ _ (by decide)
                | true =>
                  have hbase2 : dlBody cfg env photo req =
                      afterType cfg env photo req (buildS3Path req photo.s3_key) r
                        (r.content_type.getD "image/jpeg") (cs ++ [NetCall.fetchCall u]) := by
                    rw [hbase, afterFetch_good cfg env photo req _ r _ hst hbig hsmall htype]
                  by_cases hhdr : req.header = "train"
                  · cases hdec : r.decode with
                    | error m =>
                      rw [dl_wrap_ok cfg env photo req _ _
                        (by rw [hbase2,
                          afterType_train_corrupt cfg env photo req _ _ m r _ hhdr hdec])] at h
                      simp at h
                      subst h
                      exact error_code_mem _ _ _ _ (by decide)
                    | ok p =>
                      obtain ⟨w, ht⟩ := p
                      by_cases hdim : w < cfg.min_image_dimension ∨ ht < cfg.min_image_dimension
                      · rw [dl_wrap_ok cfg env photo req _ _
                          (by rw [hbase2,
                            afterType_train_small cfg env photo req _ _ r w ht _ hhdr hdec hdim])] at h
                        simp at h
                        subst h
                        exact error_code_mem _ _ _ _ (by decide)
                      · cases hup : env.upload (buildS3Path req photo.s3_key) with
                        | error m =>
                          rw [dl_wrap_generic cfg env photo req m _ hkey
                            (by rw [hbase2,
                              afterType_train_valid cfg env photo req _ _ r w ht _ hhdr hdec hdim,
                              uploadStage_err env photo req _ _ m r w ht _ hup])] at h
                          simp at h
                          subst h
                          exact error_code_mem _ _ _ _ (by decide)
                        | ok url =>
                          rw [dl_wrap_ok cfg env photo req _ _
                            (by rw [hbase2,
                              afterType_train_valid cfg env photo req _ _ r w ht _ hhdr hdec hdim,
                              uploadStage_ok env photo req _ _ url r w ht _ hup])] at h
                          simp at h
                  · cases hdec : r.decode with
                    | error m =>
                      cases hup : env.upload (buildS3Path req photo.s3_key) with
                      | error m2 =>
                        rw [dl_wrap_generic cfg env photo req m2 _ hkey
                          (by rw [hbase2,
                            afterType_inf_undecoded cfg env photo req _ _ m r _ hhdr hdec,
                            uploadStage_err env photo req _ _ m2 r 0 0 _ hup])] at h
                        simp at h
                        subst h
                        exact error_code_mem _ _ _ _ (by decide)
                      | ok url =>
                        rw [dl_wrap_ok cfg env photo req _ _
                          (by rw [hbase2,
                            afterType_inf_undecoded cfg env photo req _ _ m r _ hhdr hdec,
                            uploadStage_ok env photo req _ _ url r 0 0 _ hup])] at h
                        simp at h
                    | ok p =>
                      obtain ⟨w, ht⟩ := p
                      cases hup : env.upload (buildS3Path req photo.s3_key) with
                      | error m2 =>
                        rw [dl_wrap_generic cfg env photo req m2 _ hkey
                          (by rw [hbase2,
                            afterType_inf_decoded cfg env photo req _ _ r w ht _ hhdr hdec,
                            uploadStage_err env photo req _ _ m2 r w ht _ hup])] at h
                        simp at h
                        subst h
                        exact error_code_mem _ _ _ _ (by decide)
                      | ok url =>
                        rw [dl_wrap_ok cfg env photo req _ _
                          (by rw [hbase2,
                            afterType_inf_decoded cfg env photo req _ _ r w ht _ hhdr hdec,
                            uploadStage_ok env photo req _ _ url r w ht _ hup])] at h
                        simp at h
          · rw [dl_wrap_http cfg env photo req r.status _ hkey
              (by rw [hbase, afterFetch_http_error cfg env photo req _ r _ hst])] at h
            simp at h
            subst h
            exact error_code_mem _ _ _ _ (by decide)

theorem item_outcome_code (cfg : Config) (env : Env) (photo : PhotoFile)
    (req : UploadRequest) (e : FileUploadError)
    (h : classifyGatherResult (downloadAndUploadPhoto cfg env photo req).1 =
      ItemRes.failure e) :
    e.error_code ∈ definedErrorCodes := by
  unfold classifyGatherResult at h
  cases hdl : (downloadAndUploadPhoto cfg env photo req).1 with
  | error pe =>
    rw [hdl] at h
    simp at h
    subst h
    exact error_code_mem _ _ _ _ (by decide)
  | ok ir =>
    rw [hdl] at h
    cases ir with
    | success s => simp at h
    | failure e0 =>
      simp at h
      subst h
      exact dl_ok_failure_code cfg env photo req e0 hdl

theorem failuresOf_mem (l : List ItemRes) (e : FileUploadError)
    (h : e ∈ failuresOf l) : ItemRes.failure e ∈ l := by
  unfold failuresOf at h
  rcases List.mem_filterMap.mp h with ⟨r, hr, hmap⟩
  cases r with
  | success s => simp at hmap
  | failure e0 =>
    simp at hmap
    subst hmap
    exact hr

/-- C6: for every batch that reaches fan-out, every input item produces
exactly one `ItemOutcome` (successes plus failures count the input
list), and every failure carries one of the defined per-item error
kinds: exceptions from collaborators are absorbed inside
`_download_and_upload_photo`, and anything that still escapes — such as
the key-generation `TypeError` — is converted by the orchestrator's
`gather` handling into `Failure(UNEXPECTED_ERROR)` instead of aborting
the batch. -/
theorem c6_every_item_classified (cfg : Config) (env : Env) (req : UploadRequest)
    (hne : req.photos ≠ []) (hsize : req.photos.length ≤ cfg.max_batch_size) :
    ∃ res, (processBatchTraining cfg env req).1 = BatchOut.result res ∧
      res.successful_uploads.length + res.failed_uploads.length = req.photos.length ∧
      ∀ e ∈ res.failed_uploads, e.error_code ∈ definedErrorCodes := by
  unfold processBatchTraining
  rw [if_neg (by simpa [List.isEmpty_iff] using hne), if_neg (by omega)]
  refine ⟨_, rfl, ?_, ?_⟩
  · dsimp only
    rw [successes_failures_length]
    simp
  · intro e he
    dsimp only at he
    have hmem := failuresOf_mem _ e he
    simp only [List.map_map, List.mem_map, Function.comp] at hmem
    obtain ⟨p, _, hp⟩ := hmem
    exact item_outcome_code cfg env p req e hp

/-- Witness for C6 at a batch whose collaborators time out. -/
theorem c6_every_item_classified_witness :
    ∃ res, (processBatchTraining modelCfg timeoutEnv trainReq).1 = BatchOut.result res ∧
      res.successful_uploads.length + res.failed_uploads.length = trainReq.photos.length ∧
      ∀ e ∈ res.failed_uploads, e.error_code ∈ definedErrorCodes :=
  c6_every_item_classified modelCfg timeoutEnv trainReq (by decide) (by decide)

/- ## C8 (code bug: `generate_s3_key` keyword mismatch) -/

/-- An item whose id is already an absolute URL and whose `s3_key` is
blank — exactly what `main.py` builds for every report item. -/
def blankKeyPhoto : PhotoFile := ⟨"https://example.com/pic.jpg", ""⟩

/-- C8: evaluation at the failing input.  The item's id is an absolute
URL, yet it is never used to fetch and the locator is never consulted:
the key-generation step runs first (the key is blank) and its
`generate_s3_key(user_id=...)` call raises `TypeError` — the method's
parameter is named `chat_id` — which also re-fires inside the exception
handlers, so the exception escapes with zero network calls, and the
batch layer records `UNEXPECTED_ERROR` under file id `"unknown"`. -/
theorem c8_keygen_typeerror_eval :
    downloadAndUploadPhoto modelCfg happyEnv blankKeyPhoto trainReq =
      (Except.error genKeyKwargError, []) ∧
    classifyGatherResult (downloadAndUploadPhoto modelCfg happyEnv blankKeyPhoto trainReq).1 =
      ItemRes.failure ⟨"unknown", "unknown",
        "generate_s3_key() got an unexpected keyword argument: user_id",
        "UNEXPECTED_ERROR"⟩ := by
  constructor
  · decide
  · decide

/- ## C10 -/

/-- Projection helper for failure records built by the pipeline. -/
theorem error_code_ne (a b c d s : String) (h : d ≠ s) :
    (FileUploadError.mk a b c d).error_code ≠ s := h

/-- C10: when the fetched response carries no `content-type` header, the
item is treated as `image/jpeg`: it can never fail with
`UNSUPPORTED_FORMAT`, and when it reaches a successful upload the
success record and the upload call both report content type
`image/jpeg`. -/
theorem c10_missing_content_type_defaults
    (cfg : Config) (env : Env) (photo : PhotoFile) (req : UploadRequest)
    (u : String) (cs : List NetCall) (r : HttpResp)
    (hkey : ¬(photo.s3_key = "" ∨ pyStrip photo.s3_key = ""))
    (hres : getTelegramFileUrl env photo.file_id = (Except.ok u, cs))
    (hurl : validateUrl u = true)
    (hfetch : env.fetch u = FetchOut.resp r)
    (hst : 200 ≤ r.status ∧ r.status ≤ 299)
    (hbig : ¬ cfg.max_file_size < r.content_size)
    (hsmall : ¬ r.content_size < cfg.min_file_size)
    (hct : r.content_type = none) :
    (∀ e, (downloadAndUploadPhoto cfg env photo req).1 = Except.ok (ItemRes.failure e) →
      e.error_code ≠ "UNSUPPORTED_FORMAT") ∧
    (∀ w h url, r.decode = Except.ok (w, h) →
      ¬(w < cfg.min_image_dimension ∨ h < cfg.min_image_dimension) →
      env.upload (buildS3Path req photo.s3_key) = Except.ok url →
      ∃ s, (downloadAndUploadPhoto cfg env photo req).1 = Except.ok (ItemRes.success s) ∧
        s.content_type = "image/jpeg" ∧
        NetCall.uploadCall (buildS3Path req photo.s3_key) "image/jpeg"
          (buildMetadata req photo env w h) ∈ (downloadAndUploadPhoto cfg env photo req).2) := by
  have htype : supportedContentTypes.contains (r.content_type.getD "image/jpeg") = true := by
    rw [hct]
    decide
  have hctd : r.content_type.getD "image/jpeg" = "image/jpeg" := by
    rw [hct]
    rfl
  have hbase2 : dlBody cfg env photo req =
      afterType cfg env photo req (buildS3Path req photo.s3_key) r
        (r.content_type.getD "image/jpeg") (cs ++ [NetCall.fetchCall u]) := by
    rw [dlBody_resolved cfg env photo req u cs hkey hres hurl, hfetch]
    exact afterFetch_good cfg env photo req _ r _ hst hbig hsmall htype
  constructor
  · intro e h
    by_cases hhdr : req.header = "train"
    · cases hdec : r.decode with
      | error m =>
        rw [dl_wrap_ok cfg env photo req _ _
          (by rw [hbase2, afterType_train_corrupt cfg env photo req _ _ m r _ hhdr hdec])] at h
        simp at h
        subst h
        exact error_code_ne _ _ _ _ _ (by decide)
      | ok p =>
        obtain ⟨w, ht⟩ := p
        by_cases hdim : w < cfg.min_image_dimension ∨ ht < cfg.min_image_dimension
        · rw [dl_wrap_ok cfg env photo req _ _
            (by rw [hbase2,
              afterType_train_small cfg env photo req _ _ r w ht _ hhdr hdec hdim])] at h
          simp at h
          subst h
          exact error_code_ne _ _ _ _ _ (by decide)
        · cases hup : env.upload (buildS3Path req photo.s3_key) with
          | error m =>
            rw [dl_wrap_generic cfg env photo req m _ hkey
              (by rw [hbase2,
                afterType_train_valid cfg env photo req _ _ r w ht _ hhdr hdec hdim,
                uploadStage_err env photo req _ _ m r w ht _ hup])] at h
            simp at h
            subst h
            exact error_code_ne _ _ _ _ _ (by decide)
          | ok url =>
            rw [dl_wrap_ok cfg env photo req _ _
              (by rw [hbase2,
                afterType_train_valid cfg env photo req _ _ r w ht _ hhdr hdec hdim,
                uploadStage_ok env photo req _ _ url r w ht _ hup])] at h
            simp at h
    · cases hdec : r.decode with
      | error m =>
        cases hup : env.upload (buildS3Path req photo.s3_key) with
        | error m2 =>
          rw [dl_wrap_generic cfg env photo req m2 _ hkey
            (by rw [hbase2,
              afterType_inf_undecoded cfg env photo req _ _ m r _ hhdr hdec,
              uploadStage_err env photo req _ _ m2 r 0 0 _ hup])] at h
          simp at h
          subst h
          exact error_code_ne _ _ _ _ _ (by decide)
        | ok url =>
          rw [dl_wrap_ok cfg env photo req _ _
            (by rw [hbase2,
              afterType_inf_undecoded cfg env photo req _ _ m r _ hhdr hdec,
              uploadStage_ok env photo req _ _ url r 0 0 _ hup])] at h
          simp at h
      | ok p =>
        obtain ⟨w, ht⟩ := p
        cases hup : env.upload (buildS3Path req photo.s3_key) with
        | error m2 =>
          rw [dl_wrap_generic cfg env photo req m2 _ hkey
            (by rw [hbase2,
              afterType_inf_decoded cfg env photo req _ _ r w ht _ hhdr hdec,
              uploadStage_err env photo req _ _ m2 r w ht _ hup])] at h
          simp at h
          subst h
          exact error_code_ne _ _ _ _ _ (by decide)
        | ok url =>
          rw [dl_wrap_ok cfg env photo req _ _
            (by rw [hbase2,
              afterType_inf_decoded cfg env photo req _ _ r w ht _ hhdr hdec,
              uploadStage_ok env photo req _ _ url r w ht _ hup])] at h
          simp at h
  · intro w h url hdec hdim hup
    have hupst : uploadStage env photo req (buildS3Path req photo.s3_key) r
        (r.content_type.getD "image/jpeg") w h (cs ++ [NetCall.fetchCall u]) =
        (Except.ok (ItemRes.success ⟨photo.file_id, buildS3Path req photo.s3_key, url,
          r.content_size, env.elapsed, r.content_type.getD "image/jpeg", w, h⟩),
         (cs ++ [NetCall.fetchCall u]) ++ [NetCall.uploadCall (buildS3Path req photo.s3_key)
           (r.content_type.getD "image/jpeg") (buildMetadata req photo env w h)]) :=
      uploadStage_ok env photo req _ _ url r w h _ hup
    by_cases hhdr : req.header = "train"
    · have hdl := dl_wrap_ok cfg env photo req _ _
        (by rw [hbase2,
          afterType_train_valid cfg env photo req _ _ r w h _ hhdr hdec hdim, hupst])
      rw [hctd] at hdl
      refine ⟨_, by rw [hdl], rfl, ?_⟩
      rw [hdl]
      simp
    · have hdl := dl_wrap_ok cfg env photo req _ _
        (by rw [hbase2,
          afterType_inf_decoded cfg env photo req _ _ r w h _ hhdr hdec, hupst])
      rw [hctd] at hdl
      refine ⟨_, by rw [hdl], rfl, ?_⟩
      rw [hdl]
      simp

/-- An environment whose fetch returns no content-type header. -/
def noHeaderEnv : Env :=
  { happyEnv with fetch := fun _ => FetchOut.resp ⟨200, 50000, none, Except.ok (500, 600)⟩ }

/-- Witness for C10 at a header-less 500x600 response. -/
theorem c10_missing_content_type_defaults_witness :
    (∀ e, (downloadAndUploadPhoto modelCfg noHeaderEnv ⟨"f1", "k1"⟩ trainReq).1 =
        Except.ok (ItemRes.failure e) → e.error_code ≠ "UNSUPPORTED_FORMAT") ∧
    (∀ w h url, (⟨200, 50000, none, Except.ok (500, 600)⟩ : HttpResp).decode = Except.ok (w, h) →
      ¬(w < modelCfg.min_image_dimension ∨ h < modelCfg.min_image_dimension) →
      noHeaderEnv.upload (buildS3Path trainReq "k1") = Except.ok url →
      ∃ s, (downloadAndUploadPhoto modelCfg noHeaderEnv ⟨"f1", "k1"⟩ trainReq).1 =
          Except.ok (ItemRes.success s) ∧
        s.content_type = "image/jpeg" ∧
        NetCall.uploadCall (buildS3Path trainReq "k1") "image/jpeg"
          (buildMetadata trainReq ⟨"f1", "k1"⟩ noHeaderEnv w h) ∈
          (downloadAndUploadPhoto modelCfg noHeaderEnv ⟨"f1", "k1"⟩ trainReq).2) :=
  c10_missing_content_type_defaults modelCfg noHeaderEnv ⟨"f1", "k1"⟩ trainReq
    "https://api.telegram.org/file/botX/photos/p1.jpg" [NetCall.resolveCall "f1"]
    ⟨200, 50000, none, Except.ok (500, 600)⟩
    (by decide) (by decide) (by decide) (by decide) (by decide) (by decide) (by decide) (by decide)
